import Mathlib

/-!
Shallow embedding of the EchoDownloaderBot source (src/main.py): the
conversation state machine, the delivery pipeline of handle_format_choice,
the download configuration builder of download_media, and the dispatch
rules of the ConversationHandler built in main.  External effects
(Telegram calls, yt-dlp, the filesystem) are modelled as an explicit
environment of oracles, and the outbound side effects as a trace of
events, so that each handler becomes a pure function from its inputs and
oracles to the trace it emits and the conversation-state value it returns.
-/

namespace EchoBot

/-- The three conversation states: ASK_LINK, ASK_FORMAT, and the ended
conversation (ConversationHandler.END). -/
inductive ConvState where
  | askLink : ConvState
  | askFormat : ConvState
  | ended : ConvState
deriving DecidableEq

/-- Per-user session: the current conversation state together with
context.user_data of the source, which holds at most the pending URL
(user_data with key url). -/
structure Session where
  state : ConvState
  pending_url : Option String
deriving DecidableEq

/-- Observable outbound effects of the handlers, in order of occurrence:
Telegram replies and message edits, the one-second pauses, the creation of
the temporary directory, the invocation of the blocking fetcher in the
executor, opening and sending the downloaded file, logging, and the call
to shutil.rmtree with its ignore_errors flag. -/
inductive Out where
  | answerCallback : Out
  | editMessage : String → Out
  | sleep1 : Out
  | mkdtemp : Out
  | runFetch : String → String → Out
  | openFile : String → Out
  | sendVideo : String → Out
  | sendAudio : String → Out
  | reply : String → Out
  | replyKeyboard : String → List (String × String) → Out
  | logException : String → Out
  | rmtreeCall : Bool → Out
deriving DecidableEq

/-- The integer a handler returns to the ConversationHandler: ASK_LINK,
ASK_FORMAT, or ConversationHandler.END. -/
inductive HandlerResult where
  | toAskLink : HandlerResult
  | toAskFormat : HandlerResult
  | toEnd : HandlerResult
deriving DecidableEq

/-- Oracles for the fallible external operations inside
handle_format_choice.  fetch is the outcome of the download_media call in
the executor (Except.error carries the exception text).  editFail n gives
the exception text if the countdown edit at remaining-seconds n raises,
none if it succeeds; openFail, sendFail and doneFail likewise for opening
the file, for reply_video or reply_audio, and for the final Done reply.
rmtreeFails says whether shutil.rmtree of the temporary directory fails on
disk. -/
structure Env where
  fetch : Except String String
  editFail : Nat → Option String
  openFail : Option String
  sendFail : Option String
  doneFail : Option String
  rmtreeFails : Bool

/-- Python str.lower on the codepoint list of a string. -/
def lower (s : String) : String :=
  String.mk (s.data.map Char.toLower)

/-- Python str.strip on the codepoint list of a string: drop whitespace
from both ends. -/
def strip (s : String) : String :=
  String.mk (((s.data.dropWhile Char.isWhitespace).reverse.dropWhile
    Char.isWhitespace).reverse)

/-- Python str.startswith on codepoint lists. -/
def starts_with (s p : String) : Bool :=
  List.isPrefixOf p.data s.data

/-- Python str.endswith on codepoint lists. -/
def ends_with (s p : String) : Bool :=
  List.isSuffixOf p.data s.data

/-- Model of shutil.rmtree(dir, ignore_errors): raises exactly when the
removal fails on disk and ignore_errors is not set. -/
def shutil_rmtree (ignore_errors removal_fails : Bool) : Except String Unit :=
  if removal_fails && !ignore_errors then Except.error "removal failed"
  else Except.ok ()

/-- The countdown status text of the source, one edit per remaining
second. -/
def countdown_text (choice : String) (sec : Nat) : String :=
  "🚀 Sending your " ++ choice ++ " in " ++ toString sec ++ " second" ++
    (if sec > 1 then "s" else "") ++ "…"

/-- The for-loop over range(5, 0, -1): edit the status message, then sleep
one second; a raising edit aborts the loop with that exception. -/
def run_countdown (editFail : Nat → Option String) (choice : String) :
    List Nat → List Out × Except String Unit
  | [] => ([], Except.ok ())
  | sec :: rest =>
    match editFail sec with
    | some e => ([], Except.error e)
    | none =>
      let r := run_countdown editFail choice rest
      (Out.editMessage (countdown_text choice sec) :: Out.sleep1 :: r.1, r.2)

/-- The try-block of handle_format_choice: fetch in the executor, the
countdown, opening the file, sending it as video or audio, and the final
Done prompt; the first raising step aborts the block with its
exception. -/
def try_body (env : Env) (choice url : String) :
    List Out × Except String String :=
  match env.fetch with
  | Except.error e => ([Out.runFetch url choice], Except.error e)
  | Except.ok file_path =>
    let c := run_countdown env.editFail choice [5, 4, 3, 2, 1]
    match c.2 with
    | Except.error e => (Out.runFetch url choice :: c.1, Except.error e)
    | Except.ok _ =>
      match env.openFail with
      | some e => (Out.runFetch url choice :: c.1, Except.error e)
      | none =>
        let sendEvt :=
          if choice == "video" then Out.sendVideo file_path
          else Out.sendAudio file_path
        match env.sendFail with
        | some e =>
          (Out.runFetch url choice :: c.1 ++ [Out.openFile file_path],
           Except.error e)
        | none =>
          match env.doneFail with
          | some e =>
            (Out.runFetch url choice :: c.1 ++ [Out.openFile file_path, sendEvt],
             Except.error e)
          | none =>
            (Out.runFetch url choice :: c.1 ++
               [Out.openFile file_path, sendEvt,
                Out.reply "✅ Done! Send me another link (or /cancel to stop)."],
             Except.ok file_path)

/-- The finally-clause of handle_format_choice: shutil.rmtree with
ignore_errors=True; were the removal to raise, its exception would replace
the handler's result. -/
def finally_rmtree (rmtreeFails : Bool) (r : HandlerResult) :
    Except String HandlerResult :=
  match shutil_rmtree true rmtreeFails with
  | Except.error e => Except.error e
  | Except.ok _ => Except.ok r

/-- handle_format_choice of the source: answer the callback, bail out to
END when no pending URL is stored, otherwise announce the download, create
the temporary directory, run the try-block, report success or the caught
exception, and always run the finally-clause removal. -/
def handle_format_choice (env : Env) (choice : String)
    (pending : Option String) : List Out × Except String HandlerResult :=
  match pending with
  | none =>
    ([Out.answerCallback,
      Out.editMessage "❌ Something went wrong (missing URL). Please /start again."],
     Except.ok HandlerResult.toEnd)
  | some url =>
    let pre := [Out.answerCallback,
      Out.editMessage ("🔄 Downloading your " ++ choice ++ "…"),
      Out.mkdtemp]
    let body := try_body env choice url
    match body.2 with
    | Except.ok _ =>
      (pre ++ body.1 ++ [Out.rmtreeCall true],
       finally_rmtree env.rmtreeFails HandlerResult.toAskLink)
    | Except.error e =>
      (pre ++ (body.1 ++
         [Out.logException "Download error",
          Out.reply ("❌ Error during download: " ++ e)]) ++
        [Out.rmtreeCall true],
       finally_rmtree env.rmtreeFails HandlerResult.toAskLink)

/-- The URL test of ask_format: url.lower().startswith(("http://",
"https://")) applied to the stripped text. -/
def url_valid (url : String) : Bool :=
  starts_with (lower url) "http://" || starts_with (lower url) "https://"

/-- ask_format of the source: strip the text, reject it with a validation
message when the scheme test fails (user_data untouched), otherwise store
it as the pending URL and present the two-button audio/video keyboard. -/
def ask_format (text : String) (pending : Option String) :
    List Out × HandlerResult × Option String :=
  let url := strip text
  if !(url_valid url) then
    ([Out.reply "❗️ Please send a valid URL (must start with http:// or https://)."],
     HandlerResult.toAskLink, pending)
  else
    ([Out.replyKeyboard "Great! Do you want audio or video?"
        [("Audio 🎵", "audio"), ("Video 🎥", "video")]],
     HandlerResult.toAskFormat, some url)

/-- start of the source: greet and move to ASK_LINK; user_data is not
touched, so the pending URL survives. -/
def start (s : Session) : List Out × Session :=
  ([Out.reply "👋 Hi! Send me the link of the video you want to download."],
   Session.mk ConvState.askLink s.pending_url)

/-- cancel of the source: farewell and ConversationHandler.END. -/
def cancel (s : Session) : List Out × Session :=
  ([Out.reply "👋 Operation cancelled. Use /start to download again."],
   Session.mk ConvState.ended s.pending_url)

/-- Inbound events: the /start command, a non-command text message, an
inline-button callback with its data, and the /cancel command. -/
inductive Event where
  | cmdStart : Event
  | text : String → Event
  | callback : String → Event
  | cmdCancel : Event
deriving DecidableEq

/-- Map a handler's returned value to the conversation state the
ConversationHandler records. -/
def state_of (r : HandlerResult) : ConvState :=
  match r with
  | HandlerResult.toAskLink => ConvState.askLink
  | HandlerResult.toAskFormat => ConvState.askFormat
  | HandlerResult.toEnd => ConvState.ended

/-- The routing of the ConversationHandler built in main, with
allow_reentry=True and the catch-all MessageHandler(filters.ALL, start)
fallback: in ASK_LINK a text message goes to ask_format, /start re-enters,
/cancel ends, and a callback is unhandled; in ASK_FORMAT a callback goes
to handle_format_choice (a raising handler leaves the recorded state
unchanged), /start re-enters, a stray text hits the catch-all restart,
and /cancel ends; after END only /start is handled. -/
def dispatch (env : Env) (ev : Event) (s : Session) : List Out × Session :=
  match s.state, ev with
  | ConvState.askLink, Event.text t =>
    let r := ask_format t s.pending_url
    (r.1, Session.mk (state_of r.2.1) r.2.2)
  | ConvState.askLink, Event.cmdStart => start s
  | ConvState.askLink, Event.cmdCancel => cancel s
  | ConvState.askLink, Event.callback _ => ([], s)
  | ConvState.askFormat, Event.callback d =>
    let r := handle_format_choice env d s.pending_url
    match r.2 with
    | Except.ok hr => (r.1, Session.mk (state_of hr) s.pending_url)
    | Except.error _ => (r.1, s)
  | ConvState.askFormat, Event.cmdStart => start s
  | ConvState.askFormat, Event.text _ => start s
  | ConvState.askFormat, Event.cmdCancel => cancel s
  | ConvState.ended, Event.cmdStart => start s
  | ConvState.ended, Event.text _ => ([], s)
  | ConvState.ended, Event.callback _ => ([], s)
  | ConvState.ended, Event.cmdCancel => ([], s)

/-- One postprocessor entry of the ydl_opts dict. -/
structure Postprocessor where
  key : String
  preferredcodec : String
  preferredquality : String
deriving DecidableEq

/-- The ydl_opts dict built by download_media, field for field. -/
structure YdlOpts where
  format : String
  outtmpl : String
  noplaylist : Bool
  continuedl : Bool
  retries : Nat
  fragment_retries : Nat
  socket_timeout : Nat
  http_chunk_size : Nat
  external_downloader : String
  external_downloader_args : List String
  quiet : Bool
  postprocessors : List Postprocessor
deriving DecidableEq

/-- os.path.join on POSIX for two components: an absolute second component
wins; otherwise a separator is inserted unless the first component is
empty or already ends in one. -/
def os_path_join (a b : String) : String :=
  if starts_with b "/" then b
  else if a == "" || ends_with a "/" then a ++ b
  else a ++ "/" ++ b

/-- The configuration record download_media hands to yt-dlp: the fixed
policy dict, plus the FFmpegExtractAudio postprocessor exactly when the
format choice is audio.  Pure data construction. -/
def build_ydl_opts (download_dir fmt : String) : YdlOpts :=
  YdlOpts.mk
    (if fmt == "audio" then "bestaudio/best" else "bestvideo+bestaudio/best")
    (os_path_join download_dir "%(title)s.%(ext)s")
    true
    true
    10
    10
    10
    10485760
    "aria2c"
    ["-x", "16", "-k", "1M"]
    true
    (if fmt == "audio" then [Postprocessor.mk "FFmpegExtractAudio" "mp3" "192"]
     else [])

/-- Rightmost index at which p holds, as os.path's str.rfind uses it. -/
def rfindIdx (p : Char → Bool) : List Char → Option Nat
  | [] => none
  | c :: cs =>
    match rfindIdx p cs with
    | some i => some (i + 1)
    | none => if p c then some 0 else none

/-- The root part of os.path.splitext on POSIX: cut at the last dot when
it lies right of the last slash and the basename has a non-dot character
before it; otherwise return the path unchanged. -/
def splitext_root (s : String) : String :=
  let cs := s.data
  let sepIndex : Int :=
    match rfindIdx (fun c => c == '/') cs with
    | some i => Int.ofNat i
    | none => -1
  let dotIndex : Int :=
    match rfindIdx (fun c => c == '.') cs with
    | some i => Int.ofNat i
    | none => -1
  if sepIndex < dotIndex then
    let between := (cs.take dotIndex.toNat).drop (sepIndex + 1).toNat
    if between.any (fun c => c != '.') then String.mk (cs.take dotIndex.toNat)
    else s
  else s

/-- One run of the external yt-dlp tool, as the oracles download_media
consults: extract_info maps the url to the info object (collapsed to an
opaque token) or to the raised exception's text; prepare_filename maps the
info object to the filename yt-dlp predicts from the output template;
produced_files lists the files the run actually wrote to disk, which the
source never consults. -/
structure YdlRun where
  extract_info : String → Except String String
  prepare_filename : String → String
  produced_files : List String

/-- download_media of the source: build ydl_opts, run extract_info with
download=True, take prepare_filename of the info object, and for audio
replace the extension of that predicted name with .mp3; any exception of
the tool propagates. -/
def download_media (ydl : YdlRun) (url download_dir fmt : String) :
    Except String String :=
  let _opts := build_ydl_opts download_dir fmt
  match ydl.extract_info url with
  | Except.error e => Except.error e
  | Except.ok info =>
    let filename := ydl.prepare_filename info
    Except.ok (if fmt == "audio" then splitext_root filename ++ ".mp3"
               else filename)

/-- An oracle environment in which every external operation succeeds. -/
def env0 : Env :=
  Env.mk (Except.ok "file.mp3") (fun _ => none) none none none false

/-- An oracle environment whose fetch raises with cause Unsupported URL. -/
def envFetchErr : Env :=
  Env.mk (Except.error "Unsupported URL") (fun _ => none) none none none false

/-- An oracle environment in which the fetch and the countdown succeed but
sending the media raises, and the temporary-directory removal fails on
disk. -/
def envSendErr : Env :=
  Env.mk (Except.ok "file.mp4") (fun _ => none) none (some "Timed out") none true

/-- A yt-dlp run whose predicted filename differs from the file the tool
actually wrote (the merged container got another extension). -/
def ydlGhost : YdlRun :=
  YdlRun.mk (fun _ => Except.ok "info0") (fun _ => "/tmp/d/video.webm")
    ["/tmp/d/video.mkv"]

/-- A yt-dlp run whose extract_info raises with cause Unsupported URL. -/
def ydlErr : YdlRun :=
  YdlRun.mk (fun _ => Except.error "Unsupported URL") (fun _ => "x") []

theorem shutil_rmtree_ignored (b : Bool) : shutil_rmtree true b = Except.ok () := by
  cases b <;> rfl

theorem finally_rmtree_ok (b : Bool) (r : HandlerResult) :
    finally_rmtree b r = Except.ok r := by
  cases b <;> rfl

theorem handle_result_cases (env : Env) (c : String) (p : Option String) :
    (handle_format_choice env c p).2 = Except.ok HandlerResult.toEnd ∨
    (handle_format_choice env c p).2 = Except.ok HandlerResult.toAskLink := by
  cases p with
  | none => exact Or.inl rfl
  | some url =>
    rcases h : try_body env c url with ⟨bo, br⟩
    cases br <;> right <;> simp [handle_format_choice, h, finally_rmtree_ok]

theorem countdown_text_5 (choice : String) :
    countdown_text choice 5 = "🚀 Sending your " ++ choice ++ " in 5 seconds…" := by
  simp only [countdown_text, String.append_assoc]; rfl

theorem countdown_text_4 (choice : String) :
    countdown_text choice 4 = "🚀 Sending your " ++ choice ++ " in 4 seconds…" := by
  simp only [countdown_text, String.append_assoc]; rfl

theorem countdown_text_3 (choice : String) :
    countdown_text choice 3 = "🚀 Sending your " ++ choice ++ " in 3 seconds…" := by
  simp only [countdown_text, String.append_assoc]; rfl

theorem countdown_text_2 (choice : String) :
    countdown_text choice 2 = "🚀 Sending your " ++ choice ++ " in 2 seconds…" := by
  simp only [countdown_text, String.append_assoc]; rfl

theorem countdown_text_1 (choice : String) :
    countdown_text choice 1 = "🚀 Sending your " ++ choice ++ " in 1 second…" := by
  simp only [countdown_text, String.append_assoc]; rfl

/-- C2: in AwaitingLink, an inbound text whose trimmed form does not start
case-insensitively with http:// or https:// draws the validation-error
reply and leaves the machine in AwaitingLink with the pending URL
unchanged; a text that does gets stored trimmed as the pending URL, the
two-button audio/video keyboard is presented, and the machine moves to
AwaitingFormat. -/
theorem C2_url_validation (env : Env) (t : String) (p : Option String) :
    ((starts_with (lower (strip t)) "http://" ||
        starts_with (lower (strip t)) "https://") = false →
      dispatch env (Event.text t) (Session.mk ConvState.askLink p) =
        ([Out.reply "❗️ Please send a valid URL (must start with http:// or https://)."],
         Session.mk ConvState.askLink p)) ∧
    ((starts_with (lower (strip t)) "http://" ||
        starts_with (lower (strip t)) "https://") = true →
      dispatch env (Event.text t) (Session.mk ConvState.askLink p) =
        ([Out.replyKeyboard "Great! Do you want audio or video?"
            [("Audio 🎵", "audio"), ("Video 🎥", "video")]],
         Session.mk ConvState.askFormat (some (strip t)))) := by
  constructor <;> intro h <;>
    simp [dispatch, ask_format, url_valid, h, state_of]

theorem C2_url_validation_witness :
    ((starts_with (lower (strip "ftp://x.com/a")) "http://" ||
        starts_with (lower (strip "ftp://x.com/a")) "https://") = false ∧
      dispatch env0 (Event.text "ftp://x.com/a")
          (Session.mk ConvState.askLink none) =
        ([Out.reply "❗️ Please send a valid URL (must start with http:// or https://)."],
         Session.mk ConvState.askLink none)) ∧
    ((starts_with (lower (strip " HTTPS://Example.com/v ")) "http://" ||
        starts_with (lower (strip " HTTPS://Example.com/v ")) "https://") = true ∧
      dispatch env0 (Event.text " HTTPS://Example.com/v ")
          (Session.mk ConvState.askLink none) =
        ([Out.replyKeyboard "Great! Do you want audio or video?"
            [("Audio 🎵", "audio"), ("Video 🎥", "video")]],
         Session.mk ConvState.askFormat (some "HTTPS://Example.com/v"))) :=
  ⟨⟨by decide, (C2_url_validation env0 "ftp://x.com/a" none).1 (by decide)⟩,
   ⟨by decide, (C2_url_validation env0 " HTTPS://Example.com/v " none).2 (by decide)⟩⟩

/-- C4: a format-choice callback in AwaitingFormat with no stored pending
URL draws the lost-context error telling the user to /start again and
ends the conversation, creating no temporary directory and never invoking
the fetcher. -/
theorem C4_lost_context (env : Env) (choice : String) :
    handle_format_choice env choice none =
      ([Out.answerCallback,
        Out.editMessage "❌ Something went wrong (missing URL). Please /start again."],
       Except.ok HandlerResult.toEnd) ∧
    Out.mkdtemp ∉ (handle_format_choice env choice none).1 ∧
    (∀ u c, Out.runFetch u c ∉ (handle_format_choice env choice none).1) ∧
    (dispatch env (Event.callback choice)
        (Session.mk ConvState.askFormat none)).2 =
      Session.mk ConvState.ended none := by
  refine ⟨rfl, by simp [handle_format_choice],
    fun u c => by simp [handle_format_choice], ?_⟩
  simp [dispatch, handle_format_choice, state_of]

/-- C6: the configuration handed to the external tool is the fixed record
of the source (quality selector by format choice, title-and-extension
output template under the scoped directory, no-playlist, resume, 10
transfer retries, 10 fragment retries, 10-second socket timeout,
10485760-byte chunks, aria2c with -x 16 and -k 1M, and the mp3-at-192
postprocessor exactly for audio), the chunk size is 10 MiB, and for audio
the returned filename is the template prediction with its extension
rewritten to .mp3. -/
theorem C6_download_config (dir : String) :
    build_ydl_opts dir "audio" =
      YdlOpts.mk "bestaudio/best" (os_path_join dir "%(title)s.%(ext)s")
        true true 10 10 10 10485760 "aria2c" ["-x", "16", "-k", "1M"] true
        [Postprocessor.mk "FFmpegExtractAudio" "mp3" "192"] ∧
    build_ydl_opts dir "video" =
      YdlOpts.mk "bestvideo+bestaudio/best" (os_path_join dir "%(title)s.%(ext)s")
        true true 10 10 10 10485760 "aria2c" ["-x", "16", "-k", "1M"] true [] ∧
    (10485760 : Nat) = 10 * 1024 * 1024 ∧
    (∀ ydl url, download_media ydl url dir "audio" =
        (ydl.extract_info url).map
          (fun info => splitext_root (ydl.prepare_filename info) ++ ".mp3")) ∧
    (∀ ydl url, download_media ydl url dir "video" =
        (ydl.extract_info url).map ydl.prepare_filename) := by
  refine ⟨rfl, rfl, by norm_num, fun ydl url => ?_, fun ydl url => ?_⟩ <;>
    cases h : ydl.extract_info url <;> simp [download_media, h, Except.map]

/-- C1: once the format choice found a pending URL, the temporary
directory removal runs as the last effect of handle_format_choice on every
exit path, the handler always returns an ordinary result (the
finally-clause removal, called with ignore_errors, can never raise), and
the whole invocation — trace and result — is unchanged whether or not the
removal fails on disk. -/
theorem C1_temp_dir_cleanup (env : Env) (choice url : String) :
    (handle_format_choice env choice (some url)).1.getLast? =
      some (Out.rmtreeCall true) ∧
    (handle_format_choice env choice (some url)).2 =
      Except.ok HandlerResult.toAskLink ∧
    (∀ b, handle_format_choice
        (Env.mk env.fetch env.editFail env.openFail env.sendFail env.doneFail b)
        choice (some url) = handle_format_choice env choice (some url)) := by
  refine ⟨?_, ?_, ?_⟩
  · rcases h : try_body env choice url with ⟨bo, br⟩
    cases br <;> simp only [handle_format_choice, h] <;>
      exact List.getLast?_concat _
  · rcases h : try_body env choice url with ⟨bo, br⟩
    cases br <;> simp [handle_format_choice, h, finally_rmtree_ok]
  · intro b
    cases env with
    | mk f ef o sd d r =>
      simp only [handle_format_choice, finally_rmtree_ok]
      rfl

/-- C3: when the fetch raises with cause c, the handler's trace is exactly
the callback answer, the downloading announcement, the temporary
directory creation, the fetch attempt, the operator log, the user message
made of the prefix followed by c, and the cleanup — no countdown tick and
no media send — and the conversation returns to AwaitingLink. -/
theorem C3_fetch_failure (env : Env) (choice url cause : String)
    (h : env.fetch = Except.error cause) :
    handle_format_choice env choice (some url) =
      ([Out.answerCallback,
        Out.editMessage ("🔄 Downloading your " ++ choice ++ "…"),
        Out.mkdtemp,
        Out.runFetch url choice,
        Out.logException "Download error",
        Out.reply ("❌ Error during download: " ++ cause),
        Out.rmtreeCall true],
       Except.ok HandlerResult.toAskLink) ∧
    (dispatch env (Event.callback choice)
        (Session.mk ConvState.askFormat (some url))).2 =
      Session.mk ConvState.askLink (some url) := by
  have hb : try_body env choice url =
      ([Out.runFetch url choice], Except.error cause) := by
    simp [try_body, h]
  constructor
  · simp [handle_format_choice, hb, finally_rmtree_ok]
  · simp [dispatch, handle_format_choice, hb, finally_rmtree_ok, state_of]

theorem C3_fetch_failure_witness :
    envFetchErr.fetch = Except.error "Unsupported URL" ∧
    (handle_format_choice envFetchErr "audio" (some "https://example.com/v") =
       ([Out.answerCallback,
         Out.editMessage "🔄 Downloading your audio…",
         Out.mkdtemp,
         Out.runFetch "https://example.com/v" "audio",
         Out.logException "Download error",
         Out.reply "❌ Error during download: Unsupported URL",
         Out.rmtreeCall true],
        Except.ok HandlerResult.toAskLink) ∧
     (dispatch envFetchErr (Event.callback "audio")
         (Session.mk ConvState.askFormat (some "https://example.com/v"))).2 =
       Session.mk ConvState.askLink (some "https://example.com/v")) :=
  ⟨rfl, C3_fetch_failure envFetchErr "audio" "https://example.com/v"
    "Unsupported URL" rfl⟩

/-- C5: on a successful fetch with no raising step, the handler performs
exactly five countdown status edits, at 5, 4, 3, 2 and 1 remaining
seconds in that order, each worded with the plural seconds except the
final singular second and each followed by a one-second pause, before the
media file is opened and sent. -/
theorem C5_countdown (env : Env) (choice url path : String)
    (hf : env.fetch = Except.ok path)
    (he : ∀ n, env.editFail n = none)
    (ho : env.openFail = none) (hs : env.sendFail = none)
    (hd : env.doneFail = none) :
    handle_format_choice env choice (some url) =
      ([Out.answerCallback,
        Out.editMessage ("🔄 Downloading your " ++ choice ++ "…"),
        Out.mkdtemp,
        Out.runFetch url choice,
        Out.editMessage ("🚀 Sending your " ++ choice ++ " in 5 seconds…"),
        Out.sleep1,
        Out.editMessage ("🚀 Sending your " ++ choice ++ " in 4 seconds…"),
        Out.sleep1,
        Out.editMessage ("🚀 Sending your " ++ choice ++ " in 3 seconds…"),
        Out.sleep1,
        Out.editMessage ("🚀 Sending your " ++ choice ++ " in 2 seconds…"),
        Out.sleep1,
        Out.editMessage ("🚀 Sending your " ++ choice ++ " in 1 second…"),
        Out.sleep1,
        Out.openFile path,
        if choice == "video" then Out.sendVideo path else Out.sendAudio path,
        Out.reply "✅ Done! Send me another link (or /cancel to stop).",
        Out.rmtreeCall true],
       Except.ok HandlerResult.toAskLink) := by
  have hc : run_countdown env.editFail choice [5, 4, 3, 2, 1] =
      ([Out.editMessage (countdown_text choice 5), Out.sleep1,
        Out.editMessage (countdown_text choice 4), Out.sleep1,
        Out.editMessage (countdown_text choice 3), Out.sleep1,
        Out.editMessage (countdown_text choice 2), Out.sleep1,
        Out.editMessage (countdown_text choice 1), Out.sleep1],
       Except.ok ()) := by
    simp [run_countdown, he]
  simp [handle_format_choice, try_body, hf, hc, ho, hs, hd, finally_rmtree_ok,
    countdown_text_5, countdown_text_4, countdown_text_3, countdown_text_2,
    countdown_text_1]

theorem C5_countdown_witness :
    env0.fetch = Except.ok "file.mp3" ∧ (∀ n, env0.editFail n = none) ∧
    env0.openFail = none ∧ env0.sendFail = none ∧ env0.doneFail = none ∧
    handle_format_choice env0 "audio" (some "https://example.com/v") =
      ([Out.answerCallback,
        Out.editMessage "🔄 Downloading your audio…",
        Out.mkdtemp,
        Out.runFetch "https://example.com/v" "audio",
        Out.editMessage "🚀 Sending your audio in 5 seconds…", Out.sleep1,
        Out.editMessage "🚀 Sending your audio in 4 seconds…", Out.sleep1,
        Out.editMessage "🚀 Sending your audio in 3 seconds…", Out.sleep1,
        Out.editMessage "🚀 Sending your audio in 2 seconds…", Out.sleep1,
        Out.editMessage "🚀 Sending your audio in 1 second…", Out.sleep1,
        Out.openFile "file.mp3",
        Out.sendAudio "file.mp3",
        Out.reply "✅ Done! Send me another link (or /cancel to stop).",
        Out.rmtreeCall true],
       Except.ok HandlerResult.toAskLink) :=
  ⟨rfl, fun _ => rfl, rfl, rfl, rfl,
   C5_countdown env0 "audio" "https://example.com/v" "file.mp3" rfl
     (fun _ => rfl) rfl rfl rfl⟩

/-- C7 counterexample: issuing start while AwaitingFormat holds a pending
URL leaves that URL stored — the start handler never touches user_data,
so the stored pending URL is not discarded as the claim states. -/
theorem C7_counterexample :
    (dispatch env0 Event.cmdStart
        (Session.mk ConvState.askFormat (some "https://example.com/v"))).2.pending_url
      ≠ none := by
  decide

/-- C7 amended: issuing start from any state emits the greeting and
resets the machine to AwaitingLink while leaving the stored pending URL
untouched; since start never modifies the session, repeating it is
idempotent on the whole session state. -/
theorem C7_start_restart (env : Env) (s : Session) :
    dispatch env Event.cmdStart s =
      ([Out.reply "👋 Hi! Send me the link of the video you want to download."],
       Session.mk ConvState.askLink s.pending_url) ∧
    dispatch env Event.cmdStart (dispatch env Event.cmdStart s).2 =
      dispatch env Event.cmdStart s := by
  rcases s with ⟨st, p⟩
  cases st <;> simp [dispatch, start]

/-- C8 counterexample: after a fully successful delivery the machine is
back in AwaitingLink but the pending URL is still stored — the handler
never clears user_data, so pending_url is not cleared as the claim
states. -/
theorem C8_counterexample :
    (dispatch env0 (Event.callback "audio")
        (Session.mk ConvState.askFormat (some "https://a.com/x"))).2 =
      Session.mk ConvState.askLink (some "https://a.com/x") ∧
    (dispatch env0 (Event.callback "audio")
        (Session.mk ConvState.askFormat (some "https://a.com/x"))).2.pending_url
      ≠ none := by
  constructor <;> decide

/-- C8 amended: the format-choice handling retains pending_url unchanged
whatever the outcome, and the only transition that lands the machine in
AwaitingFormat is a text event carrying a scheme-valid URL from
AwaitingLink, which overwrites pending_url with that trimmed text. -/
theorem C8_pending_url_retention (env : Env) (ev : Event) (s : Session) :
    (∀ d u, (dispatch env (Event.callback d)
        (Session.mk ConvState.askFormat u)).2.pending_url = u) ∧
    ((dispatch env ev s).2.state = ConvState.askFormat →
      ∃ t, ev = Event.text t ∧ s.state = ConvState.askLink ∧
        (starts_with (lower (strip t)) "http://" ||
          starts_with (lower (strip t)) "https://") = true ∧
        (dispatch env ev s).2.pending_url = some (strip t)) := by
  constructor
  · intro d u
    rcases handle_result_cases env d u with h | h <;> simp [dispatch, h]
  · intro hst
    rcases s with ⟨st, p⟩
    cases st with
    | askLink =>
      cases ev with
      | text t =>
        cases hv : url_valid (strip t) with
        | false => simp [dispatch, ask_format, hv, state_of] at hst
        | true =>
          refine ⟨t, rfl, rfl, ?_, ?_⟩
          · simpa [url_valid] using hv
          · simp [dispatch, ask_format, hv, state_of]
      | cmdStart => simp [dispatch, start] at hst
      | callback d => simp [dispatch] at hst
      | cmdCancel => simp [dispatch, cancel] at hst
    | askFormat =>
      cases ev with
      | callback d =>
        rcases handle_result_cases env d p with h | h <;>
          simp [dispatch, h, state_of] at hst
      | cmdStart => simp [dispatch, start] at hst
      | text t => simp [dispatch, start] at hst
      | cmdCancel => simp [dispatch, cancel] at hst
    | ended =>
      cases ev <;> simp [dispatch, start] at hst

theorem C8_pending_url_retention_witness :
    (dispatch env0 (Event.text "https://example.com/v")
        (Session.mk ConvState.askLink none)).2.state = ConvState.askFormat ∧
    (∃ t, Event.text "https://example.com/v" = Event.text t ∧
      (Session.mk ConvState.askLink (none : Option String)).state =
        ConvState.askLink ∧
      (starts_with (lower (strip t)) "http://" ||
        starts_with (lower (strip t)) "https://") = true ∧
      (dispatch env0 (Event.text "https://example.com/v")
          (Session.mk ConvState.askLink none)).2.pending_url = some (strip t)) :=
  ⟨by decide,
   (C8_pending_url_retention env0 (Event.text "https://example.com/v")
       (Session.mk ConvState.askLink none)).2 (by decide)⟩

/-- C9 counterexample: a run in which yt-dlp merged the download into a
container other than the one the output-template prediction names — the
source returns the predicted path without checking it against the disk,
so a successful fetch does not confirm the resulting on-disk file. -/
theorem C9_counterexample :
    download_media ydlGhost "https://example.com/v" "/tmp/d" "video" =
      Except.ok "/tmp/d/video.webm" ∧
    "/tmp/d/video.webm" ∉ ydlGhost.produced_files := by
  constructor
  · rfl
  · decide

/-- C9 amended: on success the fetch returns exactly the filename
predicted by prepare_filename from the output template, with the
extension rewritten to .mp3 for audio, and never consults the files the
run produced; on failure the raised cause's text propagates unchanged to
the caller. -/
theorem C9_fetch_contract (ydl : YdlRun) (url dir fmt : String) :
    download_media ydl url dir "audio" =
      (ydl.extract_info url).map
        (fun info => splitext_root (ydl.prepare_filename info) ++ ".mp3") ∧
    (fmt = "audio" ∨ download_media ydl url dir fmt =
      (ydl.extract_info url).map ydl.prepare_filename) ∧
    (∀ e, ydl.extract_info url = Except.error e →
      download_media ydl url dir fmt = Except.error e) ∧
    (∀ pf, download_media (YdlRun.mk ydl.extract_info ydl.prepare_filename pf)
        url dir fmt = download_media ydl url dir fmt) := by
  refine ⟨?_, ?_, fun e he => ?_, fun pf => rfl⟩
  · cases h : ydl.extract_info url <;> simp [download_media, h, Except.map]
  · by_cases hf : fmt = "audio"
    · exact Or.inl hf
    · refine Or.inr ?_
      cases h : ydl.extract_info url <;>
        simp [download_media, h, Except.map, hf]
  · simp [download_media, he]

theorem C9_fetch_contract_witness :
    ydlErr.extract_info "https://u" = Except.error "Unsupported URL" ∧
    download_media ydlErr "https://u" "/tmp/d" "video" =
      Except.error "Unsupported URL" :=
  ⟨rfl, (C9_fetch_contract ydlErr "https://u" "/tmp/d" "video").2.2.1
    "Unsupported URL" rfl⟩

/-- C10: with a pending URL stored, the handler always hands back
AwaitingLink whatever raises inside the delivery steps, any exception of
the try-block — fetch, countdown edit, file open, media send or final
prompt — surfaces to the user through the single error reply carrying its
text next to the operator log, and the cleanup is still the last effect. -/
theorem C10_exception_handler (env : Env) (choice url : String) :
    (handle_format_choice env choice (some url)).2 =
      Except.ok HandlerResult.toAskLink ∧
    (∀ e, (try_body env choice url).2 = Except.error e →
      Out.reply ("❌ Error during download: " ++ e) ∈
          (handle_format_choice env choice (some url)).1 ∧
      Out.logException "Download error" ∈
          (handle_format_choice env choice (some url)).1) ∧
    (handle_format_choice env choice (some url)).1.getLast? =
      some (Out.rmtreeCall true) := by
  refine ⟨?_, fun e he => ?_, ?_⟩
  · rcases h : try_body env choice url with ⟨bo, br⟩
    cases br <;> simp [handle_format_choice, h, finally_rmtree_ok]
  · rcases h : try_body env choice url with ⟨bo, br⟩
    rw [h] at he
    simp only at he
    subst he
    constructor <;> simp [handle_format_choice, h]
  · rcases h : try_body env choice url with ⟨bo, br⟩
    cases br <;> simp only [handle_format_choice, h] <;>
      exact List.getLast?_concat _

theorem C10_exception_handler_witness :
    (try_body envSendErr "video" "https://u").2 = Except.error "Timed out" ∧
    (handle_format_choice envSendErr "video" (some "https://u")).2 =
      Except.ok HandlerResult.toAskLink ∧
    Out.reply "❌ Error during download: Timed out" ∈
      (handle_format_choice envSendErr "video" (some "https://u")).1 ∧
    Out.logException "Download error" ∈
      (handle_format_choice envSendErr "video" (some "https://u")).1 :=
  ⟨rfl, (C10_exception_handler envSendErr "video" "https://u").1,
   (C10_exception_handler envSendErr "video" "https://u").2.1 "Timed out" rfl⟩

end EchoBot
